import Mathlib

/-!
Shallow embedding of the booking lifecycle core of the
Kilat-Pet-Delivery/service-booking repository.

Conventions of the embedding:
* Go strings stay `String`; `BookingStatus`, `PetType` and `CrateSize` are
  string-typed in the source, so they stay `String` here and the recognizing
  predicates (`IsValid`) are embedded as boolean functions.
* `uuid.UUID` becomes `Nat`, with `0` playing the role of `uuid.Nil`.
* `time.Time` becomes `Nat`; since the code only ever stores `time.Now()`,
  every mutating operation takes the current time as an explicit argument.
* `float64` becomes `ℚ`; the `int64(f)` conversion (which truncates toward
  zero) becomes `truncTowardZero`.
* `int64` money amounts become `ℤ` (the amounts involved never approach the
  64-bit range, so wrap-around is not modelled).
* A Go method that mutates its receiver and returns `error` becomes a Lean
  function returning `Option DomainErr × Booking`: the first component is the
  returned error (`none` = `nil`), the second the receiver after the call.
-/

namespace KilatBooking

/-- Error kinds of the `lib-common/domain` dependency, as catalogued in the
spec: validation, invalid-state (carrying current and attempted target
status), not-found, forbidden, conflict. -/
inductive DomainErr where
  | validationErr (msg : String)
  | invalidState (current target : String)
  | notFound (entity id : String)
  | forbidden (msg : String)
  | conflict (msg : String)
deriving DecidableEq, Repr

/-! ## booking_status.go -/

/-- Embeds `validTransitions` from `booking_status.go`: the state machine map.
`none` models absence of the key from the Go map. -/
def validTransitions (s : String) : Option (List String) :=
  if s = "requested" then some ["accepted", "cancelled"]
  else if s = "accepted" then some ["in_progress", "cancelled"]
  else if s = "in_progress" then some ["delivered", "cancelled"]
  else if s = "delivered" then some ["completed"]
  else if s = "completed" then some []
  else if s = "cancelled" then some []
  else none

/-- Embeds `BookingStatus.IsValid`: the status is a key of `validTransitions`. -/
def isValidStatus (s : String) : Bool :=
  (validTransitions s).isSome

/-- Embeds `BookingStatus.CanTransitionTo`: membership of the target in the allowed
list, `false` when the source status is not a key of the map. -/
def canTransitionTo (s target : String) : Bool :=
  match validTransitions s with
  | none => false
  | some allowed => allowed.contains target

/-- Embeds `BookingStatus.IsTerminal`. -/
def isTerminal (s : String) : Bool :=
  match validTransitions s with
  | none => true
  | some allowed => allowed.isEmpty

/-- Embeds `BookingStatus.CanBeCancelled`. -/
def canBeCancelled (s : String) : Bool :=
  canTransitionTo s "cancelled"

/-! ## pet_specification.go -/

/-- Embeds `PetType.IsValid` from `pet_specification.go`. -/
def isValidPetType (p : String) : Bool :=
  p = "cat" || p = "dog" || p = "bird" || p = "rabbit" || p = "reptile" || p = "other"

/-- Embeds `CrateSize.IsValid` from `pet_specification.go`. -/
def isValidCrateSize (c : String) : Bool :=
  c = "small" || c = "medium" || c = "large" || c = "xlarge"

/-- Embeds the `VaccinationRecord` value object. -/
structure VaccinationRecord where
  VaccineName : String
  DateGiven : Nat
  ExpiresAt : Option Nat
  VetName : String
  Verified : Bool
deriving DecidableEq, Repr

/-- Embeds the `PetSpecification` value object. -/
structure PetSpecification where
  PetType : String
  Breed : String
  Name : String
  WeightKg : ℚ
  Age : Int
  Vaccinations : List VaccinationRecord
  SpecialNeeds : String
  PhotoURL : String
deriving DecidableEq, Repr

/-- Embeds the `CrateRequirement` value object. -/
structure CrateRequirement where
  MinimumSize : String
  NeedsVentilation : Bool
  NeedsTempControl : Bool
  MinimumWeightCapacity : ℚ
deriving DecidableEq, Repr

/-- Embeds `DetermineCrateRequirement` from `pet_specification.go`: size is a step
function of weight, ventilation always required, temperature control for
reptiles, capacity is the weight with a 20% buffer (`1.2 = 6/5`). -/
def DetermineCrateRequirement (spec : PetSpecification) : CrateRequirement :=
  let size :=
    if spec.WeightKg ≤ 5 then "small"
    else if spec.WeightKg ≤ 15 then "medium"
    else if spec.WeightKg ≤ 30 then "large"
    else "xlarge"
  { MinimumSize := size
    NeedsVentilation := true
    NeedsTempControl := spec.PetType == "reptile"
    MinimumWeightCapacity := spec.WeightKg * (6 / 5 : ℚ) }

/-! ## pricing.go -/

/-- Go's `int64(f)` conversion on a `float64`: truncation toward zero.
On a rational `q` this is T-division of numerator by denominator. -/
def truncTowardZero (q : ℚ) : ℤ :=
  Int.tdiv q.num (q.den : ℤ)

/-- Embeds `PricingParams` from `pricing.go`. -/
structure PricingParams where
  DistanceKm : ℚ
  PetType : String
  CrateSize : String
  IsScheduled : Bool
deriving DecidableEq, Repr

/-- Embeds `petTypeSurcharge` from `pricing.go`: errors on an unrecognized pet
type. -/
def petTypeSurcharge (petType : String) : Except String ℤ :=
  if petType = "dog" then .ok 500
  else if petType = "cat" then .ok 300
  else if petType = "bird" then .ok 200
  else if petType = "reptile" then .ok 800
  else if petType = "rabbit" then .ok 300
  else if petType = "other" then .ok 500
  else .error ("unknown pet type for pricing: " ++ petType)

/-- Embeds `crateSizeSurcharge` from `pricing.go`: the `default` branch of the Go
switch returns 0 for an unrecognized crate size. -/
def crateSizeSurcharge (size : String) : ℤ :=
  if size = "small" then 0
  else if size = "medium" then 500
  else if size = "large" then 1000
  else if size = "xlarge" then 2000
  else 0

/-- Embeds `StandardPricingStrategy.Calculate` from `pricing.go`. -/
def Calculate (params : PricingParams) : Except String ℤ :=
  if params.DistanceKm < 0 then .error "distance cannot be negative"
  else
    let afterDistance : ℤ := 500 + truncTowardZero (params.DistanceKm * 250)
    match petTypeSurcharge params.PetType with
    | .error e => .error e
    | .ok petSur => .ok (afterDistance + petSur + crateSizeSurcharge params.CrateSize)

/-! ## booking.go — the aggregate -/

/-- Embeds `dto.AddressDTO` (only the fields the core reads: the validated `Line1`
text and the geocoordinates fed to distance calculation). -/
structure AddressDTO where
  Line1 : String
  Latitude : ℚ
  Longitude : ℚ
deriving DecidableEq, Repr

/-- Embeds the `RouteSpecification` value object from `route_specification.go`. -/
structure RouteSpecification where
  PickupLat : ℚ
  PickupLng : ℚ
  DropoffLat : ℚ
  DropoffLng : ℚ
  DistanceKm : ℚ
  EstimatedDurationMin : Int
  Polyline : String
deriving DecidableEq, Repr

/-- The `Booking` aggregate root from `booking.go`, field for field. -/
structure Booking where
  id : Nat
  bookingNumber : String
  ownerID : Nat
  runnerID : Option Nat
  status : String
  petSpec : PetSpecification
  crateReq : CrateRequirement
  pickupAddress : AddressDTO
  dropoffAddress : AddressDTO
  routeSpec : Option RouteSpecification
  estimatedPriceCents : ℤ
  finalPriceCents : Option ℤ
  currency : String
  scheduledAt : Option Nat
  pickedUpAt : Option Nat
  deliveredAt : Option Nat
  cancelledAt : Option Nat
  cancelNote : String
  notes : String
  version : ℤ
  createdAt : Nat
  updatedAt : Nat
deriving DecidableEq, Repr

/-- Embeds `bookingNumberChars` from `booking.go`. -/
def bookingNumberChars : String := "ABCDEFGHJKLMNPQRSTUVWXYZ23456789"

/-- Embeds `generateBookingNumber` from `booking.go`. Each of the six draws models
one `rand.Int(rand.Reader, len(bookingNumberChars))` result, which the
generator guarantees to lie below the alphabet length; the `getD` default is
never reached for such draws. -/
def generateBookingNumber (draws : List Nat) : String :=
  "BK-" ++ String.mk (draws.map fun n => bookingNumberChars.toList.getD n 'A')

/-- Embeds `Booking.Accept`: requires the `requested → accepted` edge and a non-nil
runner id, then assigns the runner and the status. Returns the Go error and
the receiver after the call. -/
def Booking.accept (b : Booking) (runnerID : Nat) (now : Nat) :
    Option DomainErr × Booking :=
  if ¬ canTransitionTo b.status "accepted" then
    (some (.invalidState b.status "accepted"), b)
  else if runnerID = 0 then
    (some (.validationErr "runner ID is required"), b)
  else
    (none, { b with runnerID := some runnerID, status := "accepted", updatedAt := now })

/-- Embeds `Booking.StartDelivery`: requires the `accepted → in_progress` edge,
stamps `pickedUpAt`. -/
def Booking.startDelivery (b : Booking) (now : Nat) :
    Option DomainErr × Booking :=
  if ¬ canTransitionTo b.status "in_progress" then
    (some (.invalidState b.status "in_progress"), b)
  else
    (none, { b with status := "in_progress", pickedUpAt := some now, updatedAt := now })

/-- Embeds `Booking.ConfirmDelivery`: requires the `in_progress → delivered` edge,
stamps `deliveredAt`. -/
def Booking.confirmDelivery (b : Booking) (now : Nat) :
    Option DomainErr × Booking :=
  if ¬ canTransitionTo b.status "delivered" then
    (some (.invalidState b.status "delivered"), b)
  else
    (none, { b with status := "delivered", deliveredAt := some now, updatedAt := now })

/-- Embeds `Booking.Complete`: requires the `delivered → completed` edge, sets the
final price. -/
def Booking.complete (b : Booking) (finalPriceCents : ℤ) (now : Nat) :
    Option DomainErr × Booking :=
  if ¬ canTransitionTo b.status "completed" then
    (some (.invalidState b.status "completed"), b)
  else
    (none, { b with status := "completed", finalPriceCents := some finalPriceCents, updatedAt := now })

/-- Embeds `Booking.Cancel`: requires cancellability, stamps `cancelledAt` and the
reason. -/
def Booking.cancel (b : Booking) (reason : String) (now : Nat) :
    Option DomainErr × Booking :=
  if ¬ canBeCancelled b.status then
    (some (.invalidState b.status "cancelled"), b)
  else
    (none, { b with status := "cancelled", cancelNote := reason, cancelledAt := some now, updatedAt := now })

/-- Embeds `Booking.IncrementVersion`: bumps the version and the last-modified
timestamp. -/
def Booking.incrementVersion (b : Booking) (now : Nat) : Booking :=
  { b with version := b.version + 1, updatedAt := now }

/-! ## booking_repository.go — the concurrency-controlled store adapter

The `bookings` table is a list of rows; a row carries the same logical
content as the aggregate, so rows are represented by `Booking` values (the
GORM model ↔ domain conversion is the identity on this content). -/

/-- The `WHERE id = ? AND version = ?` predicate of
`GormBookingRepository.Update`. -/
def matchesUpdate (bkId : Nat) (expectedVersion : ℤ) (row : Booking) : Bool :=
  row.id = bkId && row.version = expectedVersion

/-- The `SET` map of `GormBookingRepository.Update`: exactly the columns
listed in `Updates(...)`. `id`, `booking_number`, `owner_id` and
`created_at` are not in the map, so they keep the stored row's values. -/
def applyUpdateSet (row m : Booking) : Booking :=
  { row with
    runnerID := m.runnerID
    status := m.status
    petSpec := m.petSpec
    crateReq := m.crateReq
    pickupAddress := m.pickupAddress
    dropoffAddress := m.dropoffAddress
    routeSpec := m.routeSpec
    estimatedPriceCents := m.estimatedPriceCents
    finalPriceCents := m.finalPriceCents
    currency := m.currency
    scheduledAt := m.scheduledAt
    pickedUpAt := m.pickedUpAt
    deliveredAt := m.deliveredAt
    cancelledAt := m.cancelledAt
    cancelNote := m.cancelNote
    notes := m.notes
    version := m.version
    updatedAt := m.updatedAt }

/-- Embeds `GormBookingRepository.Update`: conditional update keyed on
`id = bk.id AND version = bk.version - 1`; zero affected rows yield the
conflict error. Returns the Go error and the table after the statement. -/
def repoUpdate (db : List Booking) (bk : Booking) :
    Except DomainErr Unit × List Booking :=
  let expectedVersion := bk.version - 1
  let affected := db.countP (matchesUpdate bk.id expectedVersion)
  let db2 := db.map fun row =>
    if matchesUpdate bk.id expectedVersion row then applyUpdateSet row bk else row
  if affected = 0 then
    (.error (.conflict "booking was modified by another transaction"), db2)
  else
    (.ok (), db2)

/-- Embeds `GormBookingRepository.FindByID`: first row with the id, not-found error
otherwise. -/
def repoFindByID (db : List Booking) (id : Nat) : Except DomainErr Booking :=
  match db.find? (fun row => row.id = id) with
  | none => .error (.notFound "Booking" (toString id))
  | some row => .ok row

/-! ## booking_service.go — the lifecycle orchestrator

Event publication is fire-and-forget and does not feed back into state, so
the embedded use cases return the booking DTO result and the table state. -/

/-- Embeds `BookingService.AcceptBooking`: load, `Accept`, `IncrementVersion`,
`Update`. A failure at any step propagates and aborts. -/
def acceptBooking (db : List Booking) (bookingID runnerID : Nat) (now : Nat) :
    Except DomainErr Booking × List Booking :=
  match repoFindByID db bookingID with
  | .error e => (.error e, db)
  | .ok bk =>
    match bk.accept runnerID now with
    | (some e, _) => (.error e, db)
    | (none, bk1) =>
      let bk2 := bk1.incrementVersion now
      match repoUpdate db bk2 with
      | (.error e, db2) => (.error e, db2)
      | (.ok _, db2) => (.ok bk2, db2)

/-- Embeds `BookingService.CompleteBooking`: load, take the recorded estimated
price as the final price, `Complete`, `IncrementVersion`, `Update`. -/
def completeBooking (db : List Booking) (bookingID : Nat) (now : Nat) :
    Except DomainErr Booking × List Booking :=
  match repoFindByID db bookingID with
  | .error e => (.error e, db)
  | .ok bk =>
    let finalPrice := bk.estimatedPriceCents
    match bk.complete finalPrice now with
    | (some e, _) => (.error e, db)
    | (none, bk1) =>
      let bk2 := bk1.incrementVersion now
      match repoUpdate db bk2 with
      | (.error e, db2) => (.error e, db2)
      | (.ok _, db2) => (.ok bk2, db2)

/-! ## PaymentEventConsumer (events consumer file) -/

/-- Embeds the `events.EscrowReleasedEvent` payload. -/
structure EscrowReleasedEvent where
  PaymentID : Nat
  BookingID : Nat
  RunnerID : Nat
  RunnerPayout : ℤ
  PlatformFee : ℤ
  Currency : String
  OccurredAt : Nat
deriving DecidableEq, Repr

/-- Embeds `PaymentEventConsumer.handleEscrowReleased`: a data parse failure is
logged and `nil` is returned (the message is dropped, not retried); when
`CompleteBooking` fails, the error is logged **and returned** to the
consumer. The first component is the value handed back to the Kafka consumer
(`none` = `nil`). -/
def handleEscrowReleased (parsed : Except String EscrowReleasedEvent)
    (db : List Booking) (now : Nat) : Option DomainErr × List Booking :=
  match parsed with
  | .error _ => (none, db)
  | .ok evt =>
    match completeBooking db evt.BookingID now with
    | (.error e, db2) => (some e, db2)
    | (.ok _, db2) => (none, db2)

/-! ## Helper lemmas -/

lemma isValidStatus_cases {s : String} (h : isValidStatus s = true) :
    s = "requested" ∨ s = "accepted" ∨ s = "in_progress" ∨ s = "delivered" ∨
      s = "completed" ∨ s = "cancelled" := by
  by_contra hc
  push_neg at hc
  obtain ⟨h1, h2, h3, h4, h5, h6⟩ := hc
  simp [isValidStatus, validTransitions, h1, h2, h3, h4, h5, h6] at h

/-- The transition table of spec §4.1, as the claim words it. -/
def specTransitionTable : List (String × String) :=
  [("requested", "accepted"), ("requested", "cancelled"),
   ("accepted", "in_progress"), ("accepted", "cancelled"),
   ("in_progress", "delivered"), ("in_progress", "cancelled"),
   ("delivered", "completed")]

lemma canTransitionTo_iff_mem (s t : String) (h : isValidStatus s = true) :
    canTransitionTo s t = true ↔ (s, t) ∈ specTransitionTable := by
  rcases isValidStatus_cases h with h | h | h | h | h | h <;> subst h <;>
    simp [canTransitionTo, validTransitions, specTransitionTable, List.contains]

lemma canTransitionTo_valid {s t : String} (h : canTransitionTo s t = true) :
    isValidStatus s = true := by
  unfold canTransitionTo at h
  unfold isValidStatus
  cases hv : validTransitions s with
  | none => rw [hv] at h; simp at h
  | some l => simp [hv]

lemma accept_success {b b2 : Booking} {r now : Nat}
    (h : b.accept r now = (none, b2)) :
    canTransitionTo b.status "accepted" = true ∧
      b2 = { b with runnerID := some r, status := "accepted", updatedAt := now } := by
  unfold Booking.accept at h
  split at h
  · simp at h
  · split at h
    · simp at h
    · next hcan _ =>
      simp only [Prod.mk.injEq] at h
      exact ⟨by simpa using hcan, h.2.symm⟩

lemma startDelivery_success {b b2 : Booking} {now : Nat}
    (h : b.startDelivery now = (none, b2)) :
    canTransitionTo b.status "in_progress" = true ∧
      b2 = { b with status := "in_progress", pickedUpAt := some now, updatedAt := now } := by
  unfold Booking.startDelivery at h
  split at h
  · simp at h
  · next hcan =>
    simp only [Prod.mk.injEq] at h
    exact ⟨by simpa using hcan, h.2.symm⟩

lemma confirmDelivery_success {b b2 : Booking} {now : Nat}
    (h : b.confirmDelivery now = (none, b2)) :
    canTransitionTo b.status "delivered" = true ∧
      b2 = { b with status := "delivered", deliveredAt := some now, updatedAt := now } := by
  unfold Booking.confirmDelivery at h
  split at h
  · simp at h
  · next hcan =>
    simp only [Prod.mk.injEq] at h
    exact ⟨by simpa using hcan, h.2.symm⟩

lemma complete_success {b b2 : Booking} {p : ℤ} {now : Nat}
    (h : b.complete p now = (none, b2)) :
    canTransitionTo b.status "completed" = true ∧
      b2 = { b with status := "completed", finalPriceCents := some p, updatedAt := now } := by
  unfold Booking.complete at h
  split at h
  · simp at h
  · next hcan =>
    simp only [Prod.mk.injEq] at h
    exact ⟨by simpa using hcan, h.2.symm⟩

lemma cancel_success {b b2 : Booking} {reason : String} {now : Nat}
    (h : b.cancel reason now = (none, b2)) :
    canTransitionTo b.status "cancelled" = true ∧
      b2 = { b with status := "cancelled", cancelNote := reason,
                    cancelledAt := some now, updatedAt := now } := by
  unfold Booking.cancel at h
  split at h
  · simp at h
  · next hcan =>
    simp only [Prod.mk.injEq] at h
    exact ⟨by simpa [canBeCancelled] using hcan, h.2.symm⟩

/-- One successful aggregate transition (any of the five operations, with any
arguments, at any time). -/
inductive SuccessStep : Booking → Booking → Prop where
  | accept (b b2 : Booking) (r now : Nat) :
      b.accept r now = (none, b2) → SuccessStep b b2
  | startDelivery (b b2 : Booking) (now : Nat) :
      b.startDelivery now = (none, b2) → SuccessStep b b2
  | confirmDelivery (b b2 : Booking) (now : Nat) :
      b.confirmDelivery now = (none, b2) → SuccessStep b b2
  | complete (b b2 : Booking) (p : ℤ) (now : Nat) :
      b.complete p now = (none, b2) → SuccessStep b b2
  | cancel (b b2 : Booking) (reason : String) (now : Nat) :
      b.cancel reason now = (none, b2) → SuccessStep b b2

lemma successStep_edge {b b2 : Booking} (h : SuccessStep b b2) :
    (b.status, b2.status) ∈ specTransitionTable := by
  cases h with
  | accept r now heq =>
    obtain ⟨hcan, hb2⟩ := accept_success heq
    subst hb2
    exact (canTransitionTo_iff_mem _ _ (canTransitionTo_valid hcan)).mp hcan
  | startDelivery now heq =>
    obtain ⟨hcan, hb2⟩ := startDelivery_success heq
    subst hb2
    exact (canTransitionTo_iff_mem _ _ (canTransitionTo_valid hcan)).mp hcan
  | confirmDelivery now heq =>
    obtain ⟨hcan, hb2⟩ := confirmDelivery_success heq
    subst hb2
    exact (canTransitionTo_iff_mem _ _ (canTransitionTo_valid hcan)).mp hcan
  | complete p now heq =>
    obtain ⟨hcan, hb2⟩ := complete_success heq
    subst hb2
    exact (canTransitionTo_iff_mem _ _ (canTransitionTo_valid hcan)).mp hcan
  | cancel reason now heq =>
    obtain ⟨hcan, hb2⟩ := cancel_success heq
    subst hb2
    exact (canTransitionTo_iff_mem _ _ (canTransitionTo_valid hcan)).mp hcan

/-! ## Claim theorems -/

/-- C1: for every booking status, the set of statuses it may transition to is
exactly the §4.1 table: requested → accepted/cancelled, accepted →
in_progress/cancelled, in_progress → delivered/cancelled, delivered →
completed, while completed and cancelled have no outgoing transitions; hence
every sequence of successful transition operations keeps the status on edges
of this table. -/
theorem C1_transition_table :
    (∀ s t : String, isValidStatus s = true →
        (canTransitionTo s t = true ↔ (s, t) ∈ specTransitionTable))
  ∧ (∀ t : String, canTransitionTo "completed" t = false ∧
        canTransitionTo "cancelled" t = false)
  ∧ (∀ b b2 : Booking, SuccessStep b b2 →
        (b.status, b2.status) ∈ specTransitionTable)
  ∧ (∀ (b : Booking) (l : List Booking), List.Chain SuccessStep b l →
        List.Chain (fun x y => (x.status, y.status) ∈ specTransitionTable) b l) := by
  refine ⟨canTransitionTo_iff_mem, ?_, fun b b2 h => successStep_edge h, ?_⟩
  · intro t
    constructor <;> simp [canTransitionTo, validTransitions]
  · intro b l h
    exact List.Chain.imp (fun x y hs => successStep_edge hs) h

/-- Witness for C1 at a concrete status pair. -/
theorem C1_transition_table_witness :
    isValidStatus "requested" = true ∧
      (canTransitionTo "requested" "accepted" = true ↔
        ("requested", "accepted") ∈ specTransitionTable) :=
  ⟨by decide, C1_transition_table.1 "requested" "accepted" (by decide)⟩

/-- C6: whenever the attempted target is not reachable from the current
status, each aggregate operation returns the invalid-state error and leaves
the booking exactly as it was; in particular `Complete` on an
already-completed booking fails and alters neither `finalPriceCents` nor
`version`. -/
theorem C6_invalid_transition_frame (b : Booking) (r now : Nat) (p : ℤ)
    (reason : String) :
    (canTransitionTo b.status "accepted" = false →
        b.accept r now = (some (.invalidState b.status "accepted"), b))
  ∧ (canTransitionTo b.status "in_progress" = false →
        b.startDelivery now = (some (.invalidState b.status "in_progress"), b))
  ∧ (canTransitionTo b.status "delivered" = false →
        b.confirmDelivery now = (some (.invalidState b.status "delivered"), b))
  ∧ (canTransitionTo b.status "completed" = false →
        b.complete p now = (some (.invalidState b.status "completed"), b))
  ∧ (canTransitionTo b.status "cancelled" = false →
        b.cancel reason now = (some (.invalidState b.status "cancelled"), b))
  ∧ (b.status = "completed" →
        b.complete p now = (some (.invalidState "completed" "completed"), b) ∧
          (b.complete p now).2.finalPriceCents = b.finalPriceCents ∧
          (b.complete p now).2.version = b.version) := by
  refine ⟨fun h => by simp [Booking.accept, h],
          fun h => by simp [Booking.startDelivery, h],
          fun h => by simp [Booking.confirmDelivery, h],
          fun h => by simp [Booking.complete, h],
          fun h => by simp [Booking.cancel, canBeCancelled, h],
          fun h => ?_⟩
  have hfalse : canTransitionTo b.status "completed" = false := by
    rw [h]; decide
  have hc : b.complete p now = (some (.invalidState b.status "completed"), b) := by
    simp [Booking.complete, hfalse]
  rw [h] at hc
  exact ⟨hc, by rw [hc], by rw [hc]⟩

/-- A concrete booking for the witnesses, parametrized by id, status and
version. -/
def sampleBooking (bid : Nat) (st : String) (ver : ℤ) : Booking :=
  { id := bid, bookingNumber := "BK-ABCDEF", ownerID := 11, runnerID := some 12,
    status := st,
    petSpec := { PetType := "dog", Breed := "mixed", Name := "Rex", WeightKg := 10,
                 Age := 24, Vaccinations := [], SpecialNeeds := "", PhotoURL := "" },
    crateReq := { MinimumSize := "medium", NeedsVentilation := true,
                  NeedsTempControl := false, MinimumWeightCapacity := 12 },
    pickupAddress := { Line1 := "1 Jalan A", Latitude := 3, Longitude := 101 },
    dropoffAddress := { Line1 := "2 Jalan B", Latitude := 3, Longitude := 102 },
    routeSpec := none, estimatedPriceCents := 4000, finalPriceCents := none,
    currency := "MYR", scheduledAt := none, pickedUpAt := none,
    deliveredAt := none, cancelledAt := none, cancelNote := "", notes := "",
    version := ver, createdAt := 1, updatedAt := 1 }

/-- Witness for C6 on a completed booking. -/
theorem C6_invalid_transition_frame_witness :
    canTransitionTo (sampleBooking 1 "completed" 5).status "accepted" = false ∧
      (sampleBooking 1 "completed" 5).accept 9 10 =
        (some (.invalidState (sampleBooking 1 "completed" 5).status "accepted"),
          sampleBooking 1 "completed" 5) :=
  ⟨by decide,
    (C6_invalid_transition_frame (sampleBooking 1 "completed" 5) 9 10 0 "").1
      (by decide)⟩

lemma acceptBooking_abort {db : List Booking} {bookingID runnerID now : Nat}
    {bk : Booking} (hfind : repoFindByID db bookingID = .ok bk)
    {e : DomainErr} {b1 : Booking}
    (hacc : bk.accept runnerID now = (some e, b1)) :
    acceptBooking db bookingID runnerID now = (.error e, db) := by
  simp [acceptBooking, hfind, hacc]

lemma acceptBooking_ok_version {db : List Booking} {bookingID runnerID now : Nat}
    {bk : Booking} (hfind : repoFindByID db bookingID = .ok bk)
    {bres : Booking} {db2 : List Booking}
    (hrun : acceptBooking db bookingID runnerID now = (.ok bres, db2)) :
    bres.version = bk.version + 1 := by
  unfold acceptBooking at hrun
  rw [hfind] at hrun
  dsimp only at hrun
  cases hacc : bk.accept runnerID now with
  | mk oe b1 =>
    rw [hacc] at hrun
    cases oe with
    | some e => simp at hrun
    | none =>
      obtain ⟨hcan, hb1⟩ := accept_success hacc
      cases hupd : repoUpdate db (b1.incrementVersion now) with
      | mk res db3 =>
        dsimp only at hrun
        rw [hupd] at hrun
        cases res with
        | error e => simp at hrun
        | ok u =>
          simp only [Prod.mk.injEq, Except.ok.injEq] at hrun
          rw [← hrun.1, hb1]
          simp [Booking.incrementVersion]

/-- C7: every successful aggregate transition updates the last-modified
timestamp and leaves `version` unchanged; `IncrementVersion` is the separate
explicit step adding exactly 1, and the orchestrator applies it only after
the aggregate operation succeeds: an aggregate failure aborts `AcceptBooking`
with the store untouched, while on success the snapshot submitted to the
store carries the loaded version plus 1. -/
theorem C7_version_discipline (b : Booking) (r now : Nat) (p : ℤ)
    (reason : String) (db : List Booking) (bookingID runnerID2 : Nat) :
    (∀ b2, b.accept r now = (none, b2) →
        b2.version = b.version ∧ b2.updatedAt = now)
  ∧ (∀ b2, b.startDelivery now = (none, b2) →
        b2.version = b.version ∧ b2.updatedAt = now)
  ∧ (∀ b2, b.confirmDelivery now = (none, b2) →
        b2.version = b.version ∧ b2.updatedAt = now)
  ∧ (∀ b2, b.complete p now = (none, b2) →
        b2.version = b.version ∧ b2.updatedAt = now)
  ∧ (∀ b2, b.cancel reason now = (none, b2) →
        b2.version = b.version ∧ b2.updatedAt = now)
  ∧ (b.incrementVersion now).version = b.version + 1
  ∧ (∀ bk, repoFindByID db bookingID = .ok bk →
        (∀ e b1, bk.accept runnerID2 now = (some e, b1) →
            acceptBooking db bookingID runnerID2 now = (.error e, db))
      ∧ (∀ bres db2, acceptBooking db bookingID runnerID2 now = (.ok bres, db2) →
            bres.version = bk.version + 1)) := by
  refine ⟨?_, ?_, ?_, ?_, ?_, by simp [Booking.incrementVersion], ?_⟩
  · intro b2 h; obtain ⟨-, hb⟩ := accept_success h; subst hb; simp
  · intro b2 h; obtain ⟨-, hb⟩ := startDelivery_success h; subst hb; simp
  · intro b2 h; obtain ⟨-, hb⟩ := confirmDelivery_success h; subst hb; simp
  · intro b2 h; obtain ⟨-, hb⟩ := complete_success h; subst hb; simp
  · intro b2 h; obtain ⟨-, hb⟩ := cancel_success h; subst hb; simp
  · intro bk hfind
    exact ⟨fun e b1 hacc => acceptBooking_abort hfind hacc,
           fun bres db2 hrun => acceptBooking_ok_version hfind hrun⟩

/-- Witness for C7: a successful `Accept` on a requested booking keeps the
version and stamps the timestamp. -/
theorem C7_version_discipline_witness :
    ({ sampleBooking 21 "requested" 1 with
         runnerID := some 7, status := "accepted", updatedAt := 100 } : Booking).version =
        (sampleBooking 21 "requested" 1).version ∧
      ({ sampleBooking 21 "requested" 1 with
           runnerID := some 7, status := "accepted", updatedAt := 100 } : Booking).updatedAt = 100 :=
  (C7_version_discipline (sampleBooking 21 "requested" 1) 7 100 0 "" [] 0 0).1
    { sampleBooking 21 "requested" 1 with
        runnerID := some 7, status := "accepted", updatedAt := 100 } (by decide)

lemma completeBooking_ok {db : List Booking} {bookingID now : Nat}
    {bk : Booking} (hfind : repoFindByID db bookingID = .ok bk)
    {bres : Booking} {db2 : List Booking}
    (hrun : completeBooking db bookingID now = (.ok bres, db2)) :
    bres = ({ bk with
        status := "completed"
        finalPriceCents := some bk.estimatedPriceCents
        updatedAt := now } : Booking).incrementVersion now := by
  unfold completeBooking at hrun
  rw [hfind] at hrun
  dsimp only at hrun
  cases hcomp : bk.complete bk.estimatedPriceCents now with
  | mk oe b1 =>
    rw [hcomp] at hrun
    cases oe with
    | some e => simp at hrun
    | none =>
      obtain ⟨hcan, hb1⟩ := complete_success hcomp
      cases hupd : repoUpdate db (b1.incrementVersion now) with
      | mk res db3 =>
        dsimp only at hrun
        rw [hupd] at hrun
        cases res with
        | error e => simp at hrun
        | ok u =>
          simp only [Prod.mk.injEq, Except.ok.injEq] at hrun
          rw [← hrun.1, hb1]

/-- C9: when the completion use case driven by the payment signal succeeds,
the final price handed to `Complete` is the booking's recorded estimated
price, so the completed booking satisfies
`finalPriceCents = some estimatedPriceCents`. -/
theorem C9_final_price_is_estimate (db : List Booking) (bookingID now : Nat)
    (bk : Booking) (hfind : repoFindByID db bookingID = .ok bk) :
    ∀ bres db2, completeBooking db bookingID now = (.ok bres, db2) →
      bres.finalPriceCents = some bk.estimatedPriceCents ∧
        bres.estimatedPriceCents = bk.estimatedPriceCents ∧
        bres.status = "completed" ∧
        bres.finalPriceCents = some bres.estimatedPriceCents := by
  intro bres db2 hrun
  have hres := completeBooking_ok hfind hrun
  subst hres
  simp [Booking.incrementVersion]

/-- Witness for C9: completing a delivered booking via the signal sets the
final price to the 4000-cent estimate. -/
theorem C9_final_price_is_estimate_witness :
    (({ sampleBooking 31 "delivered" 3 with
          status := "completed"
          finalPriceCents := some 4000
          updatedAt := 100 } : Booking).incrementVersion 100).finalPriceCents =
        some (sampleBooking 31 "delivered" 3).estimatedPriceCents :=
  (C9_final_price_is_estimate [sampleBooking 31 "delivered" 3] 31 100
      (sampleBooking 31 "delivered" 3) (by rfl)
      (({ sampleBooking 31 "delivered" 3 with
            status := "completed"
            finalPriceCents := some 4000
            updatedAt := 100 } : Booking).incrementVersion 100)
      [({ sampleBooking 31 "delivered" 3 with
            status := "completed"
            finalPriceCents := some 4000
            updatedAt := 100 } : Booking).incrementVersion 100]
      (by rfl)).1

lemma matchesUpdate_iff {bk row : Booking} {ev : ℤ} :
    matchesUpdate bk.id ev row = true ↔ row.id = bk.id ∧ row.version = ev := by
  simp [matchesUpdate]

lemma repoUpdate_ok_iff (db : List Booking) (bk : Booking) :
    (repoUpdate db bk).1 = .ok () ↔
      ∃ row ∈ db, row.id = bk.id ∧ row.version = bk.version - 1 := by
  unfold repoUpdate
  dsimp only
  constructor
  · intro h
    split at h
    · simp at h
    · next hne =>
      have hpos := Nat.pos_of_ne_zero hne
      rw [List.countP_pos_iff] at hpos
      obtain ⟨row, hmem, hmatch⟩ := hpos
      exact ⟨row, hmem, matchesUpdate_iff.mp hmatch⟩
  · rintro ⟨row, hmem, hrow⟩
    have hpos : 0 < db.countP (matchesUpdate bk.id (bk.version - 1)) :=
      List.countP_pos_iff.mpr ⟨row, hmem, matchesUpdate_iff.mpr hrow⟩
    split
    · next hz => omega
    · rfl

lemma repoUpdate_no_match (db : List Booking) (bk : Booking)
    (h : ∀ row ∈ db, ¬ (row.id = bk.id ∧ row.version = bk.version - 1)) :
    repoUpdate db bk =
      (.error (.conflict "booking was modified by another transaction"), db) := by
  have hz : db.countP (matchesUpdate bk.id (bk.version - 1)) = 0 := by
    rw [List.countP_eq_zero]
    intro row hmem hmatch
    exact h row hmem (matchesUpdate_iff.mp hmatch)
  have hmap : (db.map fun row =>
      if matchesUpdate bk.id (bk.version - 1) row then applyUpdateSet row bk else row) = db := by
    have hcong : ∀ row ∈ db, (if matchesUpdate bk.id (bk.version - 1) row
        then applyUpdateSet row bk else row) = id row := by
      intro row hmem
      rw [List.countP_eq_zero] at hz
      simp [hz row hmem]
    rw [List.map_congr_left hcong, List.map_id]
  unfold repoUpdate
  simp [hz, hmap]

/-- C2: the conditional update of the store succeeds exactly when a stored
row has the booking's id and the pre-increment version `bk.version − 1`; on
success the stored row receives all mutable fields (version included,
becoming `bk.version`, with id, booking number, owner and creation time kept
from the row); when no row matches, it returns the conflict error — a kind
distinct from not-found — and leaves the table unchanged. -/
theorem C2_optimistic_update (db : List Booking) (bk : Booking)
    (huniq : (db.map Booking.id).Nodup) :
    ((repoUpdate db bk).1 = .ok () ↔
        ∃ row ∈ db, row.id = bk.id ∧ row.version = bk.version - 1)
  ∧ (∀ row ∈ db, row.id = bk.id →
        ((repoUpdate db bk).1 = .ok () ↔ row.version = bk.version - 1))
  ∧ ((∀ row ∈ db, ¬ (row.id = bk.id ∧ row.version = bk.version - 1)) →
        repoUpdate db bk =
          (.error (.conflict "booking was modified by another transaction"), db))
  ∧ ((repoUpdate db bk).2 = db.map fun row =>
        if matchesUpdate bk.id (bk.version - 1) row then applyUpdateSet row bk else row)
  ∧ (∀ row : Booking,
        (applyUpdateSet row bk).version = bk.version ∧
        (applyUpdateSet row bk).status = bk.status ∧
        (applyUpdateSet row bk).runnerID = bk.runnerID ∧
        (applyUpdateSet row bk).finalPriceCents = bk.finalPriceCents ∧
        (applyUpdateSet row bk).updatedAt = bk.updatedAt ∧
        (applyUpdateSet row bk).id = row.id ∧
        (applyUpdateSet row bk).bookingNumber = row.bookingNumber ∧
        (applyUpdateSet row bk).ownerID = row.ownerID ∧
        (applyUpdateSet row bk).createdAt = row.createdAt)
  ∧ (∀ m e i : String, DomainErr.conflict m ≠ DomainErr.notFound e i) := by
  refine ⟨repoUpdate_ok_iff db bk, ?_, repoUpdate_no_match db bk, ?_, ?_, by simp⟩
  · intro row hmem hid
    rw [repoUpdate_ok_iff]
    constructor
    · rintro ⟨row2, hmem2, hid2, hver2⟩
      have heq : row2 = row :=
        List.inj_on_of_nodup_map huniq hmem2 hmem (hid2.trans hid.symm)
      rwa [← heq]
    · intro hver
      exact ⟨row, hmem, hid, hver⟩
  · unfold repoUpdate
    dsimp only
    split <;> rfl
  · intro row
    simp [applyUpdateSet]

/-- Witness for C2 on a one-row table whose row is at the expected
pre-increment version. -/
theorem C2_optimistic_update_witness :
    (repoUpdate [sampleBooking 41 "requested" 1]
          ({ sampleBooking 41 "requested" 1 with status := "accepted", version := 2 } : Booking)).1 = .ok () ↔
      ∃ row ∈ [sampleBooking 41 "requested" 1],
        row.id = ({ sampleBooking 41 "requested" 1 with status := "accepted", version := 2 } : Booking).id ∧
          row.version =
            ({ sampleBooking 41 "requested" 1 with status := "accepted", version := 2 } : Booking).version - 1 :=
  (C2_optimistic_update [sampleBooking 41 "requested" 1]
      ({ sampleBooking 41 "requested" 1 with status := "accepted", version := 2 } : Booking)
      (by decide)).1

/-- A concrete escrow-released event aimed at booking 51. -/
def sampleEscrowEvent : EscrowReleasedEvent :=
  { PaymentID := 7, BookingID := 51, RunnerID := 12, RunnerPayout := 3000,
    PlatformFee := 1000, Currency := "MYR", OccurredAt := 90 }

/-- C3 counterexample: with a successfully parsed event whose booking is
already completed, `CompleteBooking` fails and the handler returns that
error to the message consumer — it does **not** return success, so the
event remains subject to redelivery. -/
theorem C3_counterexample :
    (handleEscrowReleased (.ok sampleEscrowEvent)
        [sampleBooking 51 "completed" 5] 100).1 =
      some (.invalidState "completed" "completed") ∧
    (handleEscrowReleased (.ok sampleEscrowEvent)
        [sampleBooking 51 "completed" 5] 100).1 ≠ none := by
  have h : (handleEscrowReleased (.ok sampleEscrowEvent)
      [sampleBooking 51 "completed" 5] 100).1 =
        some (.invalidState "completed" "completed") := rfl
  exact ⟨h, by rw [h]; simp⟩

/-- C3 (amended): only a parse failure is swallowed (the handler returns
success so the malformed message is dropped); when `CompleteBooking` fails —
for example on a booking that is not in delivered status — the handler
returns that error to the message consumer, so the event is **not**
acknowledged as handled and may be redelivered; a successful completion
returns success. -/
theorem C3_consumer_result (db : List Booking) (evt : EscrowReleasedEvent)
    (now : Nat) :
    (∀ msg : String, handleEscrowReleased (.error msg) db now = (none, db))
  ∧ (∀ e db2, completeBooking db evt.BookingID now = (.error e, db2) →
        handleEscrowReleased (.ok evt) db now = (some e, db2))
  ∧ (∀ b db2, completeBooking db evt.BookingID now = (.ok b, db2) →
        handleEscrowReleased (.ok evt) db now = (none, db2)) := by
  refine ⟨fun msg => rfl, fun e db2 h => ?_, fun b db2 h => ?_⟩
  · simp [handleEscrowReleased, h]
  · simp [handleEscrowReleased, h]

/-- Witness for the amended C3 at the concrete completed booking. -/
theorem C3_consumer_result_witness :
    handleEscrowReleased (.ok sampleEscrowEvent)
        [sampleBooking 51 "completed" 5] 100 =
      (some (.invalidState "completed" "completed"),
        [sampleBooking 51 "completed" 5]) :=
  (C3_consumer_result [sampleBooking 51 "completed" 5] sampleEscrowEvent 100).2.1
    (.invalidState "completed" "completed") [sampleBooking 51 "completed" 5] (by rfl)

/-- C4 counterexample: the booking-number alphabet
`ABCDEFGHJKLMNPQRSTUVWXYZ23456789` has 32 symbols, not 33 as claimed. -/
theorem C4_counterexample : bookingNumberChars.length ≠ 33 := by decide

lemma bookingNumberChars_getD_mem {n : Nat} (h : n < 32) :
    bookingNumberChars.toList.getD n 'A' ∈ bookingNumberChars.toList := by
  have hlen : n < bookingNumberChars.toList.length := by
    have h32 : bookingNumberChars.toList.length = 32 := by decide
    omega
  rw [List.getD_eq_getElem?_getD, List.getElem?_eq_getElem hlen]
  exact List.getElem_mem hlen

/-- C4 (amended): every generated booking number is the text `BK-` followed
by exactly 6 characters, each drawn from the 32-symbol alphabet, which is
duplicate-free and excludes the visually ambiguous characters I, O, 0, 1. -/
theorem C4_number_format (draws : List Nat) (hlen : draws.length = 6)
    (hdraws : ∀ n ∈ draws, n < 32) :
    (∃ rest : String, generateBookingNumber draws = "BK-" ++ rest ∧
        rest.length = 6 ∧ ∀ ch ∈ rest.toList, ch ∈ bookingNumberChars.toList)
  ∧ bookingNumberChars.length = 32
  ∧ bookingNumberChars.toList.Nodup
  ∧ 'I' ∉ bookingNumberChars.toList ∧ 'O' ∉ bookingNumberChars.toList
  ∧ '0' ∉ bookingNumberChars.toList ∧ '1' ∉ bookingNumberChars.toList := by
  refine ⟨⟨String.mk (draws.map fun n => bookingNumberChars.toList.getD n 'A'),
            rfl, ?_, ?_⟩,
          by decide, by decide, by decide, by decide, by decide, by decide⟩
  · show (draws.map fun n => bookingNumberChars.toList.getD n 'A').length = 6
    rw [List.length_map, hlen]
  · intro ch hch
    have hch2 : ch ∈ draws.map fun n => bookingNumberChars.toList.getD n 'A' := hch
    rw [List.mem_map] at hch2
    obtain ⟨n, hn, heq⟩ := hch2
    rw [← heq]
    exact bookingNumberChars_getD_mem (hdraws n hn)

/-- Witness for the amended C4 at six concrete draws. -/
theorem C4_number_format_witness :
    ∃ rest : String, generateBookingNumber [0, 1, 2, 3, 4, 5] = "BK-" ++ rest ∧
      rest.length = 6 ∧ ∀ ch ∈ rest.toList, ch ∈ bookingNumberChars.toList :=
  (C4_number_format [0, 1, 2, 3, 4, 5] (by decide) (by decide)).1

lemma isValidPetType_cases {p : String} (h : isValidPetType p = true) :
    p = "cat" ∨ p = "dog" ∨ p = "bird" ∨ p = "rabbit" ∨ p = "reptile" ∨
      p = "other" := by
  by_contra hc
  push_neg at hc
  obtain ⟨h1, h2, h3, h4, h5, h6⟩ := hc
  simp [isValidPetType, h1, h2, h3, h4, h5, h6] at h

lemma isValidCrateSize_cases {c : String} (h : isValidCrateSize c = true) :
    c = "small" ∨ c = "medium" ∨ c = "large" ∨ c = "xlarge" := by
  by_contra hc
  push_neg at hc
  obtain ⟨h1, h2, h3, h4⟩ := hc
  simp [isValidCrateSize, h1, h2, h3, h4] at h

lemma isValidPetType_not {p : String} (h : isValidPetType p = false) :
    p ≠ "cat" ∧ p ≠ "dog" ∧ p ≠ "bird" ∧ p ≠ "rabbit" ∧ p ≠ "reptile" ∧
      p ≠ "other" := by
  have h2 := h
  simp only [isValidPetType, Bool.or_eq_false_iff, decide_eq_false_iff_not] at h2
  tauto

lemma isValidCrateSize_not {c : String} (h : isValidCrateSize c = false) :
    c ≠ "small" ∧ c ≠ "medium" ∧ c ≠ "large" ∧ c ≠ "xlarge" := by
  have h2 := h
  simp only [isValidCrateSize, Bool.or_eq_false_iff, decide_eq_false_iff_not] at h2
  tauto

/-- The pet-type surcharge table exactly as the claim words it. -/
def specPetSurcharge (p : String) : ℤ :=
  if p = "dog" then 500 else if p = "cat" then 300 else if p = "bird" then 200
  else if p = "reptile" then 800 else if p = "rabbit" then 300 else 500

/-- The crate-size surcharge table exactly as the claim words it. -/
def specCrateSurcharge (c : String) : ℤ :=
  if c = "small" then 0 else if c = "medium" then 500
  else if c = "large" then 1000 else 2000

lemma petTypeSurcharge_valid {p : String} (h : isValidPetType p = true) :
    petTypeSurcharge p = .ok (specPetSurcharge p) := by
  rcases isValidPetType_cases h with h | h | h | h | h | h <;> subst h <;> rfl

lemma crateSizeSurcharge_valid {c : String} (h : isValidCrateSize c = true) :
    crateSizeSurcharge c = specCrateSurcharge c := by
  rcases isValidCrateSize_cases h with h | h | h | h <;> subst h <;> rfl

/-- C5: for a non-negative distance, recognized pet type and crate size, the
price is 500 + the distance charge truncated toward zero + the pet surcharge
table + the crate surcharge table; a negative distance is an error; the two
spec examples price at 4000 and 800 cents. -/
theorem C5_pricing_formula (d : ℚ) (p c : String) (sched : Bool)
    (hd : 0 ≤ d) (hp : isValidPetType p = true) (hc : isValidCrateSize c = true) :
    Calculate ⟨d, p, c, sched⟩ =
        .ok (500 + truncTowardZero (d * 250) + specPetSurcharge p +
          specCrateSurcharge c)
  ∧ (∀ d2 : ℚ, d2 < 0 →
        Calculate ⟨d2, p, c, sched⟩ = .error "distance cannot be negative")
  ∧ Calculate ⟨10, "dog", "medium", false⟩ = .ok 4000
  ∧ Calculate ⟨0, "cat", "small", false⟩ = .ok 800 := by
  have hnl : ¬ d < 0 := not_lt.mpr hd
  refine ⟨?_, fun d2 h2 => by simp [Calculate, h2], ?_, ?_⟩
  · simp [Calculate, hnl, petTypeSurcharge_valid hp, crateSizeSurcharge_valid hc]
  · simp [Calculate, truncTowardZero, petTypeSurcharge, crateSizeSurcharge]
    norm_num
  · simp [Calculate, truncTowardZero, petTypeSurcharge, crateSizeSurcharge]

/-- Witness for C5 at the spec's 10 km dog/medium example. -/
theorem C5_pricing_formula_witness :
    Calculate ⟨10, "dog", "medium", false⟩ =
      .ok (500 + truncTowardZero ((10 : ℚ) * 250) + specPetSurcharge "dog" +
        specCrateSurcharge "medium") :=
  (C5_pricing_formula 10 "dog" "medium" false (by norm_num) (by decide)
      (by decide)).1

/-- C8: the derived crate requirement sizes by the weight step function
(≤5 small, ≤15 medium, ≤30 large, else x-large), always requires
ventilation, requires temperature control exactly for reptiles, and sets the
weight capacity to 1.2× the pet's weight. -/
theorem C8_crate_derivation (spec : PetSpecification) :
    (spec.WeightKg ≤ 5 → (DetermineCrateRequirement spec).MinimumSize = "small")
  ∧ (5 < spec.WeightKg → spec.WeightKg ≤ 15 →
        (DetermineCrateRequirement spec).MinimumSize = "medium")
  ∧ (15 < spec.WeightKg → spec.WeightKg ≤ 30 →
        (DetermineCrateRequirement spec).MinimumSize = "large")
  ∧ (30 < spec.WeightKg →
        (DetermineCrateRequirement spec).MinimumSize = "xlarge")
  ∧ (DetermineCrateRequirement spec).NeedsVentilation = true
  ∧ ((DetermineCrateRequirement spec).NeedsTempControl = true ↔
        spec.PetType = "reptile")
  ∧ (DetermineCrateRequirement spec).MinimumWeightCapacity =
      spec.WeightKg * (6 / 5 : ℚ) := by
  refine ⟨fun h1 => by simp [DetermineCrateRequirement, h1],
          fun h1 h2 => by simp [DetermineCrateRequirement, not_le.mpr h1, h2],
          fun h1 h2 => ?_, fun h1 => ?_,
          by simp [DetermineCrateRequirement],
          by simp [DetermineCrateRequirement],
          by simp [DetermineCrateRequirement]⟩
  · have n5 : ¬ spec.WeightKg ≤ 5 := by linarith
    simp [DetermineCrateRequirement, n5, not_le.mpr h1, h2]
  · have n5 : ¬ spec.WeightKg ≤ 5 := by linarith
    have n15 : ¬ spec.WeightKg ≤ 15 := by linarith
    have n30 : ¬ spec.WeightKg ≤ 30 := by linarith
    simp [DetermineCrateRequirement, n5, n15, n30]

/-- The 4 kg cat of the spec's crate-derivation example. -/
def samplePetSpec : PetSpecification :=
  { PetType := "cat", Breed := "", Name := "Mimi", WeightKg := 4, Age := 12,
    Vaccinations := [], SpecialNeeds := "", PhotoURL := "" }

/-- Witness for C8: the 4 kg pet gets a small crate. -/
theorem C8_crate_derivation_witness :
    (DetermineCrateRequirement samplePetSpec).MinimumSize = "small" :=
  (C8_crate_derivation samplePetSpec).1 (by norm_num [samplePetSpec])

/-- C10: at the pricing interface an unrecognized crate size is silently
priced with surcharge 0 (calculation still succeeds, agreeing with the
small-crate price), whereas an unrecognized pet type always makes the
calculation fail — the two unknowns are handled asymmetrically. -/
theorem C10_unknown_asymmetry (d : ℚ) (p c : String) (sched : Bool)
    (hd : 0 ≤ d) :
    (isValidPetType p = true → ∃ n : ℤ, Calculate ⟨d, p, c, sched⟩ = .ok n)
  ∧ (isValidCrateSize c = false → crateSizeSurcharge c = 0)
  ∧ (isValidPetType p = false →
        Calculate ⟨d, p, c, sched⟩ =
          .error ("unknown pet type for pricing: " ++ p))
  ∧ (isValidPetType p = true → isValidCrateSize c = false →
        Calculate ⟨d, p, c, sched⟩ = Calculate ⟨d, p, "small", sched⟩) := by
  have hnl : ¬ d < 0 := not_lt.mpr hd
  refine ⟨fun hp => ?_, fun hc => ?_, fun hp => ?_, fun hp hc => ?_⟩
  · exact ⟨500 + truncTowardZero (d * 250) + specPetSurcharge p +
        crateSizeSurcharge c,
      by simp [Calculate, hnl, petTypeSurcharge_valid hp]⟩
  · obtain ⟨h1, h2, h3, h4⟩ := isValidCrateSize_not hc
    simp [crateSizeSurcharge, h1, h2, h3, h4]
  · obtain ⟨h1, h2, h3, h4, h5, h6⟩ := isValidPetType_not hp
    simp [Calculate, hnl, petTypeSurcharge, h1, h2, h3, h4, h5, h6]
  · obtain ⟨h1, h2, h3, h4⟩ := isValidCrateSize_not hc
    simp [Calculate, hnl, petTypeSurcharge_valid hp, crateSizeSurcharge,
      h1, h2, h3, h4]

/-- Witness for C10: an unknown pet type errors even though the crate size
is also unknown, and the same unknown crate size prices fine with a dog. -/
theorem C10_unknown_asymmetry_witness :
    Calculate ⟨1, "ferret", "huge", false⟩ =
      .error ("unknown pet type for pricing: " ++ "ferret") :=
  (C10_unknown_asymmetry 1 "ferret" "huge" false (by norm_num)).2.2.1 (by decide)

end KilatBooking
